import Mathlib

set_option maxHeartbeats 1000000
set_option maxRecDepth 4000

/-!
Shallow embedding of the quality-control workflow bot (`src/main.py`).

The program is an aiogram-based conversational workflow engine: a fixed
table of process step chains (`PROCESS_CHAINS`), per-step validation
(`validate_input`), a defect classifier (`is_choice_defect`), conditional
photo/comment requirements, draft persistence (`save_state_to_db` /
`load_state_from_db`), an in-memory continuation-token map
(`ACCUM_CONTINUE_TOKENS` with the `accum_continue` / `cgp_continue`
handlers), a dual-QR image decoder (`_sync_decode_multi_qr`), and a final
record insert (`finish_process`).

Transport-only details (message rendering, prompt strings, Telegram file
downloads, keyboards) are outside the embedded state machine; handlers are
modelled as pure functions from their session data (the aiogram FSM data
dict) and explicit inputs to an outcome plus the updated data, and database
effects (insert success, draft deletion) are surfaced as explicit result
fields.
-/

namespace QualityControl

/-- JSON-like values stored in the FSM data dictionary: collected step
values (`values`), draft payloads, and the flattened record inserted into
`control_data`. Strings for choice values and comments, rationals for
parsed floats, naturals for counters such as `sample_number`, and the
nested photo map stored under the `photos` key before insertion. -/
inductive Val where
  | s : String → Val
  | q : ℚ → Val
  | n : Nat → Val
  | photosVal : List (String × List String) → Val
deriving DecidableEq, Repr

/-- First-occurrence lookup in an association list; models `dict.get` /
`dict[k]` (keys are unique in every dict the program builds). -/
def lookupKV {α : Type} (m : List (String × α)) (k : String) : Option α :=
  match m with
  | [] => none
  | (k0, v0) :: rest => if k0 = k then some v0 else lookupKV rest k

/-- Models the Python `k in d` membership test. -/
def memKV {α : Type} (m : List (String × α)) (k : String) : Bool :=
  (lookupKV m k).isSome

/-- Models `d[k] = v`: replace in place if the key exists (keeping its
position, as Python dicts do), else append. -/
def setKV {α : Type} (m : List (String × α)) (k : String) (v : α) : List (String × α) :=
  match m with
  | [] => [(k, v)]
  | (k0, v0) :: rest => if k0 = k then (k0, v) :: rest else (k0, v0) :: setKV rest k v

/-- Python truthiness of a stored value (`if values.get(key):`). -/
def truthyVal : Val → Bool
  | .s str => str != ""
  | .q x => x != 0
  | .n m => m != 0
  | .photosVal l => !l.isEmpty

/-- Python truthiness of an `Optional[str]`. -/
def strTruthy : Option String → Bool
  | some s => s != ""
  | none => false

/-- Python `a or b` on `Optional[str]` operands: the first operand when it
is truthy, else the second. -/
def orStr (a b : Option String) : Option String :=
  if strTruthy a then a else b

/-- One step descriptor of `PROCESS_CHAINS`: key, value type tag
(`"float"` / `"choice"` / `"text"` as in the source dicts), optional
numeric validation bounds, optional text length bound, the ordered
label-to-canonical-value choice mapping, and the conditional-requirement
flags `photo_on_defect`, `require_photo_always`, `comment_on_defect`.
The prompt and comment-prompt strings are transport-only rendering data
and are not part of the embedded state machine. -/
structure Step where
  key : String
  type : String
  vmin : Option ℚ
  vmax : Option ℚ
  maxLength : Option Nat
  choices : List (String × String)
  photo_on_defect : Bool
  require_photo_always : Bool
  comment_on_defect : Bool
deriving DecidableEq, Repr

/-- A `'type': 'float'` step with `'validation': {'min': mn, 'max': mx}`. -/
def floatStep (key : String) (mn mx : ℚ) : Step :=
  ⟨key, "float", some mn, some mx, none, [], false, false, false⟩

/-- A `'type': 'choice'` step with its choice mapping and conditional
flags (photo-on-defect, require-photo-always, comment-on-defect). -/
def choiceStep (key : String) (choices : List (String × String))
    (pod rpa cod : Bool) : Step :=
  ⟨key, "choice", none, none, none, choices, pod, rpa, cod⟩

/-- `PROCESS_CHAINS["forming"]`. -/
def forming_chain : List Step :=
  [ floatStep "shell_diameter" 1 500,
    floatStep "weight_sample_grams" 1 100000,
    floatStep "stuffing_diameter" 1 500,
    floatStep "stuffing_length_visual" 1 10000,
    choiceStep "mince_contamination_visual" [("✅ Норма", "norm"), ("❌ Дефект", "defect")] true false false,
    choiceStep "hanging_quality_visual" [("✅ Норма", "norm"), ("❌ Дефект", "defect")] true false false ]

/-- `PROCESS_CHAINS["accumulation"]`. -/
def accumulation_chain : List Step :=
  [ floatStep "temperature" (-50) 200,
    choiceStep "contamination_visual" [("✅ Норма", "norm"), ("❌ Дефект", "defect")] true false false,
    choiceStep "wrinkling_visual" [("Отсутствует", "absent"), ("Незначительная", "minor"), ("Сильная", "major")] false true false,
    choiceStep "smoking_color_calorimeter" [("✅ Норма", "norm"), ("❌ Дефект", "defect")] true false false,
    choiceStep "structure_visual" [("✅ Норма", "norm"), ("❌ Дефект", "defect")] true false false,
    choiceStep "porosity_visual" [("✅ Норма", "norm"), ("❌ Дефект", "defect")] false true false,
    choiceStep "slips_visual" [("✅ Норма", "norm"), ("❌ Дефект", "defect")] true false false,
    choiceStep "print_defects_visual" [("✅ Соответствует", "absent"), ("❌ Не соответствует", "present")] true false false,
    choiceStep "shell_adhesion_physical" [("✅ Норма", "norm"), ("❌ Дефект", "defect")] true false false,
    choiceStep "organoleptics" [("✅ Норма", "norm"), ("❌ Дефект", "defect")] false false true ]

/-- `PROCESS_CHAINS["packaging"]`. -/
def packaging_chain : List Step :=
  [ choiceStep "gas_mixture_ratio" [("✅ Норма", "norm"), ("❌ Дефект", "defect")] false false false,
    choiceStep "package_integrity" [("✅ Нет нарушений", "no"), ("❌ Есть нарушения", "yes")] true false false,
    floatStep "weight_compliance_operator" 1 100000,
    floatStep "weight_compliance_technologist" 1 100000 ]

/-- `PROCESS_CHAINS["cgp"]`. -/
def cgp_chain : List Step :=
  [ choiceStep "cgp_inserts_visual" [("✅ Соответствует", "ok"), ("❌ Не соответствует", "not_ok")] true false false ]

/-- The `PROCESS_CHAINS` table. -/
def PROCESS_CHAINS : List (String × List Step) :=
  [ ("forming", forming_chain),
    ("accumulation", accumulation_chain),
    ("packaging", packaging_chain),
    ("cgp", cgp_chain) ]

/-- The defect classifier: `value in defect_values_map.get(step_key, set())`.
`wrinkling_visual` maps to the empty set and keys absent from the table
default to the empty set, so both answer `false`. -/
def is_choice_defect (step_key value : String) : Bool :=
  match step_key with
  | "mince_contamination_visual" => value == "defect"
  | "hanging_quality_visual" => value == "defect"
  | "contamination_visual" => value == "defect"
  | "slips_visual" => value == "defect"
  | "print_defects_visual" => value == "present"
  | "shell_adhesion_physical" => value == "defect"
  | "smoking_color_calorimeter" => value == "defect"
  | "porosity_visual" => value == "defect"
  | "organoleptics" => value == "defect"
  | "structure_visual" => value == "defect"
  | "package_integrity" => value == "yes"
  | "gas_mixture_ratio" => value == "defect"
  | "cgp_inserts_visual" => value == "not_ok"
  | _ => false

/-- The defect classifier applied to a stored value: Python membership of
a non-string value in a set of strings is `False`. -/
def is_choice_defect_val (step_key : String) : Val → Bool
  | .s v => is_choice_defect step_key v
  | _ => false

/-- Result of `validate_input`: `None` is valid, otherwise the violated
bound named in the user-facing message
(`"Значение должно быть не менее {min}"` / `"не более {max}"` /
`"Текст слишком длинный (максимум {n} символов)"`). -/
inductive ValidationError where
  | tooLow : ℚ → ValidationError
  | tooHigh : ℚ → ValidationError
  | tooLong : Nat → ValidationError
deriving DecidableEq, Repr

/-- `len(str(value))` for the text branch of `validate_input` (only ever
reached with a string value). -/
def valTextLen : Val → Nat
  | .s str => str.length
  | _ => 0

/-- `validate_input(value, step_config)`: for float steps check
`value < min` then `value > max` (so the closed interval `[min, max]` is
accepted); for text steps check `max_length and len(str(value)) > max_length`
(a zero bound is falsy and skipped); any other type is always valid.
Note there is no branch for choice steps. -/
def validate_input (value : Val) (step : Step) : Option ValidationError :=
  if step.type == "float" then
    match value with
    | .q x =>
      match step.vmin, step.vmax with
      | some mn, some mx =>
        if x < mn then some (.tooLow mn)
        else if x > mx then some (.tooHigh mx)
        else none
      | some mn, none => if x < mn then some (.tooLow mn) else none
      | none, some mx => if x > mx then some (.tooHigh mx) else none
      | none, none => none
    | _ => none
  else if step.type == "text" then
    match step.maxLength with
    | some ml =>
      if ml == 0 then none
      else if valTextLen value > ml then some (.tooLong ml) else none
    | none => none
  else none

/-- Whitespace recognised by Python `str.strip()` (the forms that can
occur in Telegram text). -/
def isSpaceChar (c : Char) : Bool :=
  c == ' ' || c == '\t' || c == '\n' || c == '\r' || c == '\x0b' || c == '\x0c'

/-- Models Python `str.strip()`. -/
def pyStrip (s : String) : String :=
  ⟨((s.data.dropWhile isSpaceChar).reverse.dropWhile isSpaceChar).reverse⟩

/-- Models `user_input.replace(',', '.')` (single-character replacement is
a character-wise map). -/
def replaceCommaDot (s : String) : String :=
  ⟨s.data.map (fun c => if c == ',' then '.' else c)⟩

def allDigits (cs : List Char) : Bool := cs.all (fun c => c.isDigit)

def digitsToNat (cs : List Char) : Nat :=
  cs.foldl (fun a c => a * 10 + (c.toNat - 48)) 0

/-- Split a character list on a separator (as `str.split(sep)` does). -/
def splitOnChar (sep : Char) : List Char → List (List Char)
  | [] => [[]]
  | c :: rest =>
    let r := splitOnChar sep rest
    if c == sep then [] :: r
    else
      match r with
      | h :: t => (c :: h) :: t
      | [] => [[c]]

/-- Model of Python `float(str)` restricted to plain decimal literals:
optional sign, digits with at most one decimal point, at least one digit.
The exponent, infinity, nan and underscore forms CPython also accepts are
not modelled; no claim in this development depends on them. -/
def parseFloat (s : String) : Option ℚ :=
  let signed : Bool × List Char :=
    match s.data with
    | '-' :: r => (true, r)
    | '+' :: r => (false, r)
    | r => (false, r)
  let mk : ℚ → Option ℚ := fun x => some (if signed.1 then -x else x)
  match splitOnChar '.' signed.2 with
  | [intp] =>
    if !intp.isEmpty && allDigits intp then mk (digitsToNat intp : ℚ) else none
  | [intp, fracp] =>
    if (!intp.isEmpty || !fracp.isEmpty) && allDigits intp && allDigits fracp then
      mk ((digitsToNat intp : ℚ) + (digitsToNat fracp : ℚ) / (10 : ℚ) ^ fracp.length)
    else none
  | _ => none

-- ----------------------------------------------------------------
-- QR decoding (`_sync_decode_multi_qr`)
-- ----------------------------------------------------------------

/-- One object returned by `pyzbar.decode`: symbol type, decoded text and
bounding rect. -/
structure QRObj where
  qrType : String
  text : String
  left : Int
  top : Int
  width : Int
  height : Int
deriving DecidableEq, Repr

/-- One entry of the `items` list built by `_sync_decode_multi_qr`. -/
structure QRItem where
  text : String
  x : Int
  y : Int
  w : Int
  h : Int
  area : Int
deriving DecidableEq, Repr

/-- Deduplication by decoded text, first occurrence wins (the
`seen` / `uniq` loop). -/
def dedupByText : List QRItem → List String → List QRItem
  | [], _ => []
  | it :: rest, seen =>
    if seen.contains it.text then dedupByText rest seen
    else it :: dedupByText rest (it.text :: seen)

/-- Stable insertion: place `x` after every element strictly before it. -/
def insertLt {α : Type} (lt : α → α → Bool) (x : α) : List α → List α
  | [] => [x]
  | y :: ys => if lt y x then y :: insertLt lt x ys else x :: y :: ys

/-- Stable sort by a strict comparison, modelling Python `list.sort`
(Timsort is stable; `reverse=True` flips only the key order, keeping
stability). -/
def isortLt {α : Type} (lt : α → α → Bool) : List α → List α
  | [] => []
  | x :: xs => insertLt lt x (isortLt lt xs)

/-- `_sync_decode_multi_qr`, with the pyzbar detection results as input:
keep only `QRCODE` objects, build the item tuples with
`area = width * height`, deduplicate by text, return empty if none remain,
else sort by area descending, keep the two largest, and re-sort those by
ascending left edge. -/
def sync_decode_multi_qr (objs : List QRObj) : List QRItem :=
  let qrs := objs.filter (fun o => o.qrType == "QRCODE")
  let items := qrs.map (fun o => (⟨o.text, o.left, o.top, o.width, o.height, o.width * o.height⟩ : QRItem))
  let uniq := dedupByText items []
  if uniq.isEmpty then []
  else
    let byArea := isortLt (fun a b => decide (b.area < a.area)) uniq
    let top2 := byArea.take 2
    isortLt (fun a b => decide (a.x < b.x)) top2

-- ----------------------------------------------------------------
-- Session data (the aiogram FSM data dict)
-- ----------------------------------------------------------------

/-- The workflow-relevant fields of the FSM data dictionary threaded
through the handlers. Transport bookkeeping beyond
`last_bot_message_id` (chat id, file ids, image paths, `control_dir`)
does not influence the embedded control flow and is omitted. -/
structure SessionData where
  user_id : Option Nat
  process_name : Option String
  step_index : Nat
  sample_number : Nat
  values : List (String × Val)
  photos : List (String × List String)
  pending_photo_required : Bool
  pending_comment_required : Bool
  pending_photo_param_key : Option String
  pending_comment_param_key : Option String
  forming_session_id : Option Nat
  accumulation_qr_tare : Option String
  accumulation_qr_goods : Option String
  accumulation_qr_text : Option String
  cgp_qr_tare : Option String
  cgp_qr_goods : Option String
  cgp_qr_text : Option String
  last_bot_message_id : Option Nat
deriving DecidableEq, Repr

/-- The stale-message guard at the top of the callback handlers:
`if last_id and callback.message.message_id != last_id`. -/
def staleMessage (lastId : Option Nat) (msgId : Nat) : Bool :=
  match lastId with
  | some l => l != msgId
  | none => false

-- ----------------------------------------------------------------
-- process_step_answer (text input while Process.in_progress)
-- ----------------------------------------------------------------

inductive StepAnswerOutcome where
  | noText
  | fatalCleared
  | useButtons
  | badNumber
  | invalidValue : ValidationError → StepAnswerOutcome
  | storedAwaitPhoto
  | stored
deriving DecidableEq, Repr

/-- `process_step_answer`: reject empty text, fail fatally when the
process or step index is unknown, tell the operator to use the buttons on
choice steps, for float steps parse `text.strip().replace(',', '.')`,
run `validate_input`, and on success store the value under the step key —
entering the await-photo state when the step sets
`require_photo_always`, else returning to the parameter menu. The session
data is returned unchanged on every rejection path. -/
def process_step_answer (d : SessionData) (text : String) :
    StepAnswerOutcome × SessionData :=
  if text.isEmpty then (.noText, d)
  else
    match d.process_name with
    | none => (.fatalCleared, d)
    | some pn =>
      match lookupKV PROCESS_CHAINS pn with
      | none => (.fatalCleared, d)
      | some chain =>
        match chain.get? d.step_index with
        | none => (.fatalCleared, d)
        | some current_step =>
          let user_input := pyStrip text
          if current_step.type == "choice" then (.useButtons, d)
          else
            match (if current_step.type == "float"
                   then (parseFloat (replaceCommaDot user_input)).map Val.q
                   else some (.s user_input)) with
            | none => (.badNumber, d)
            | some value_to_save =>
              match validate_input value_to_save current_step with
              | some e => (.invalidValue e, d)
              | none =>
                let vals := setKV d.values current_step.key value_to_save
                if current_step.require_photo_always then
                  (.storedAwaitPhoto,
                    { d with values := vals, pending_photo_required := true,
                             pending_photo_param_key := some current_step.key })
                else (.stored, { d with values := vals })

-- ----------------------------------------------------------------
-- process_choice_answer (choice button callback)
-- ----------------------------------------------------------------

inductive ChoiceOutcome where
  | ignoredStale
  | rejected
  | storedAwaitPhoto
  | storedAwaitComment
  | stored
deriving DecidableEq, Repr

/-- `callback.data.split(':')[-1]`. -/
def lastColonSegment (s : String) : String :=
  ⟨(splitOnChar ':' s.data).getLastD s.data⟩

/-- `process_choice_answer`: after the stale-message guard and the
chain/index/type checks, take the last `:`-segment of the callback data as
the value, store it under the step's key, then enter the await-photo state
when `require_photo_always` is set or the step sets `photo_on_defect` and
the value classifies as a defect; else enter the await-comment state when
`comment_on_defect` is set and the value classifies as a defect; else
return to the parameter menu. No check compares the value against the
step's choice set. -/
def process_choice_answer (d : SessionData) (msgId : Nat) (cbData : String) :
    ChoiceOutcome × SessionData :=
  if staleMessage d.last_bot_message_id msgId then (.ignoredStale, d)
  else
    match (match d.process_name with
           | some pn => lookupKV PROCESS_CHAINS pn
           | none => none) with
    | none => (.rejected, d)
    | some chain =>
      match chain.get? d.step_index with
      | none => (.rejected, d)
      | some step =>
        if step.type != "choice" then (.rejected, d)
        else
          let value_to_save := lastColonSegment cbData
          let step_key := step.key
          let vals := setKV d.values step_key (.s value_to_save)
          let need_photo := step.require_photo_always ||
            (step.photo_on_defect && is_choice_defect step_key value_to_save)
          if need_photo then
            (.storedAwaitPhoto,
              { d with values := vals, pending_photo_required := true,
                       pending_photo_param_key := some step_key })
          else
            let need_comment := step.comment_on_defect &&
              is_choice_defect step_key value_to_save
            if need_comment then
              (.storedAwaitComment,
                { d with values := vals, pending_comment_required := true,
                         pending_comment_param_key := some step_key })
            else
              (.stored, { d with values := vals, pending_photo_required := false })

-- ----------------------------------------------------------------
-- finish_process
-- ----------------------------------------------------------------

inductive FinishOutcome where
  | pendingPhoto
  | pendingComment
  | noValues
  | noUser
  | missingPhoto : String → FinishOutcome
  | missingComment : String → FinishOutcome
  | saveFailed
  | savedForming
  | savedOther
deriving DecidableEq, Repr

def isSuccessOutcome : FinishOutcome → Bool
  | .savedForming => true
  | .savedOther => true
  | _ => false

/-- The arguments of the final
`INSERT INTO control_data (user_id, stage_name, forming_session_id,
value_numeric, data)`. -/
structure InsertArgs where
  user_id : Nat
  stage_name : Option String
  forming_session_id : Option Nat
  value_numeric : Option Val
  payload : List (String × Val)
deriving DecidableEq, Repr

/-- The observable effect of one `finish_process` call: the reply shown to
the operator (`outcome`), the insert attempted against the Record Sink
(`none` when the insert statement was never reached), whether the
in-memory FSM session was cleared (`state.clear()`), and whether the
durable draft row was deleted (`clear_state_for_process`). -/
structure FinishResult where
  outcome : FinishOutcome
  insertAttempt : Option InsertArgs
  fsmCleared : Bool
  draftCleared : Bool
deriving DecidableEq, Repr

/-- `PROCESS_CHAINS.get(process_name, [])` with a possibly missing
process name. -/
def chainFor (pn : Option String) : List Step :=
  match pn with
  | some nm => (lookupKV PROCESS_CHAINS nm).getD []
  | none => []

/-- The per-entry body of the completion-requirement loop in
`finish_process`: skip keys without a step config, then require a photo
when `require_photo_always` is set, a photo when `photo_on_defect` is set
and the value classifies as a defect, and a truthy `<key>_comment` entry
when `comment_on_defect` is set and the value classifies as a defect. -/
def entryFailure (chain : List Step) (allValues : List (String × Val))
    (photos : List (String × List String)) (k : String) (v : Val) :
    Option FinishOutcome :=
  match chain.find? (fun st => st.key == k) with
  | none => none
  | some st =>
    if st.require_photo_always && !memKV photos k then some (.missingPhoto k)
    else if st.photo_on_defect && is_choice_defect_val k v && !memKV photos k then
      some (.missingPhoto k)
    else if st.comment_on_defect && is_choice_defect_val k v &&
        !(match lookupKV allValues (k ++ "_comment") with
          | some c => truthyVal c
          | none => false) then
      some (.missingComment k)
    else none

/-- The completion-requirement loop: the first failing entry (in the
insertion order of `values.items()`) aborts the completion. -/
def reqFailure (chain : List Step) (allValues : List (String × Val))
    (photos : List (String × List String)) : List (String × Val) → Option FinishOutcome
  | [] => none
  | (k, v) :: rest =>
    match entryFailure chain allValues photos k v with
    | some e => some e
    | none => reqFailure chain allValues photos rest

/-- The `value_numeric` computation: the first float-typed step of the
chain whose key has a collected value; `None` when no such step exists. -/
def value_numeric_of (chain : List Step) (values : List (String × Val)) : Option Val :=
  match chain.find? (fun st => st.type == "float" && memKV values st.key) with
  | some st => lookupKV values st.key
  | none => none

/-- The accumulation-specific payload augmentation before the insert. -/
def augmentAccum (d : SessionData) (vals : List (String × Val)) : List (String × Val) :=
  if d.process_name == some "accumulation" then
    let tare := d.accumulation_qr_tare
    let goods := orStr d.accumulation_qr_goods d.accumulation_qr_text
    let v1 := if strTruthy tare then setKV vals "accumulation_qr_tare" (.s (tare.getD "")) else vals
    let v2 := if strTruthy goods then setKV v1 "accumulation_qr_goods" (.s (goods.getD "")) else v1
    if strTruthy goods then setKV v2 "accumulation_qr_text" (.s (goods.getD "")) else v2
  else vals

/-- The cgp-specific payload augmentation before the insert. -/
def augmentCgp (d : SessionData) (vals : List (String × Val)) : List (String × Val) :=
  if d.process_name == some "cgp" then
    let tare := d.cgp_qr_tare
    let goods := orStr d.cgp_qr_goods d.cgp_qr_text
    let v1 := if strTruthy tare then setKV vals "cgp_qr_tare" (.s (tare.getD "")) else vals
    let v2 := if strTruthy goods then setKV v1 "cgp_qr_goods" (.s (goods.getD "")) else v1
    if strTruthy goods then setKV v2 "cgp_qr_text" (.s (goods.getD "")) else v2
  else vals

/-- `finish_process`: refuse while a photo or comment requirement is
pending, refuse with no collected values, clear everything on a missing
user id, run the completion-requirement loop, compute `value_numeric`,
augment the payload (`sample_number` for forming, the `photos` map, the
QR compatibility keys), then attempt the insert. On insert failure the
FSM session is cleared (`state.clear()`) but the draft row is NOT deleted;
on success the draft row is deleted, and the FSM session is cleared except
for forming, which proceeds to the add-another-sample confirmation. -/
def finish_process (d : SessionData) (sinkOk : Bool) : FinishResult :=
  if d.pending_photo_required then ⟨.pendingPhoto, none, false, false⟩
  else if d.pending_comment_required then ⟨.pendingComment, none, false, false⟩
  else if d.values.isEmpty then ⟨.noValues, none, false, false⟩
  else
    match d.user_id with
    | none => ⟨.noUser, none, true, d.process_name.isSome⟩
    | some uid =>
      let chain := chainFor d.process_name
      match reqFailure chain d.values d.photos d.values with
      | some err => ⟨err, none, false, false⟩
      | none =>
        let vnum := value_numeric_of chain d.values
        let vals1 := if d.process_name == some "forming"
                     then setKV d.values "sample_number" (.n d.sample_number)
                     else d.values
        let vals2 := if d.photos.isEmpty then vals1
                     else setKV vals1 "photos" (.photosVal d.photos)
        let vals3 := augmentAccum d vals2
        let vals4 := augmentCgp d vals3
        let args : InsertArgs := ⟨uid, d.process_name, d.forming_session_id, vnum, vals4⟩
        if sinkOk then
          if d.process_name == some "forming"
          then ⟨.savedForming, some args, false, true⟩
          else ⟨.savedOther, some args, true, true⟩
        else ⟨.saveFailed, some args, true, false⟩

inductive MenuDoneOutcome where
  | staleIgnored
  | needPhotoAlert
  | needCommentAlert
  | needValuesAlert
  | finished : FinishResult → MenuDoneOutcome
deriving DecidableEq, Repr

/-- `param_menu_done`: the "save and finish" button — stale-message guard,
then alerts while a photo or comment requirement is pending or no value is
collected, else `finish_process`. -/
def param_menu_done (d : SessionData) (msgId : Nat) (sinkOk : Bool) : MenuDoneOutcome :=
  if staleMessage d.last_bot_message_id msgId then .staleIgnored
  else if d.pending_photo_required then .needPhotoAlert
  else if d.pending_comment_required then .needCommentAlert
  else if d.values.isEmpty then .needValuesAlert
  else .finished (finish_process d sinkOk)

-- ----------------------------------------------------------------
-- Draft load (`load_state_from_db`)
-- ----------------------------------------------------------------

/-- A stored `state_storage` row as seen by `load_state_from_db`:
no row (or a NULL `state_data`), a payload on which deserialization
raises, or a successfully deserialized key/value payload. -/
inductive StoredDraft where
  | absent
  | unparseable
  | parsed : List (String × Val) → StoredDraft
deriving DecidableEq, Repr

/-- The observable effect of one `load_state_from_db` call: the returned
flag, the data the FSM was set to, the FSM state that was set, and whether
the draft row was deleted (`clear_state_for_process`). -/
structure LoadResult where
  found : Bool
  loadedData : Option (List (String × Val))
  loadedState : Option Val
  draftDeleted : Bool
deriving DecidableEq, Repr

/-- The `Process.param_menu` default state
(`fsm_state_str or Process.param_menu`). -/
def PARAM_MENU_STATE : Val := .s "Process:param_menu"

/-- `load_state_from_db`: return not-found when no row (or NULL payload)
exists; delete the row and return not-found when deserialization fails;
otherwise set the FSM data to the deserialized payload as-is, restore the
FSM state from the payload's `fsm_state` entry (falling back to the
parameter menu when falsy or absent), and return found. No field of the
payload is compared against any engine version. -/
def load_state_from_db (stored : StoredDraft) : LoadResult :=
  match stored with
  | .absent => ⟨false, none, none, false⟩
  | .unparseable => ⟨false, none, none, true⟩
  | .parsed dta =>
    let fsmVal :=
      match lookupKV dta "fsm_state" with
      | some v => if truthyVal v then v else PARAM_MENU_STATE
      | none => PARAM_MENU_STATE
    ⟨true, some dta, some fsmVal, false⟩

-- ----------------------------------------------------------------
-- Continuation tokens (`ACCUM_CONTINUE_TOKENS` and the continue handlers)
-- ----------------------------------------------------------------

/-- One record of the `ACCUM_CONTINUE_TOKENS` map:
`{'user_id': ..., 'goods': ..., 'tare': ..., 'created_at': ...}`
(creation time in seconds). -/
structure TokData where
  user_id : Nat
  goods : Option String
  tare : Option String
  created_at : Nat
deriving DecidableEq, Repr

def TOKEN_TTL_SECONDS : Nat := 3600

inductive ContOutcome where
  | ignoredStale
  | badData
  | notFound
  | expired
  | resumed
deriving DecidableEq, Repr

/-- The observable effect of one continue-handler call: the operator-facing
outcome, the token map afterwards, the process whose draft row was deleted
(if any), and the session data installed on success. -/
structure ContResult where
  outcome : ContOutcome
  tokens : String → Option TokData
  draftCleared : Option String
  newData : Option SessionData

/-- `callback.data.split(':', 1)[1]`, with the `IndexError` on missing
separator modelled as `none`. -/
def afterColonAux : List Char → Option String
  | [] => none
  | c :: rest => if c == ':' then some ⟨rest⟩ else afterColonAux rest

def afterFirstColon (s : String) : Option String := afterColonAux s.data

/-- `del ACCUM_CONTINUE_TOKENS[token]` / `.pop(token, None)`. -/
def tokenDelete (store : String → Option TokData) (tok : String) :
    String → Option TokData :=
  fun t => if t = tok then none else store t

/-- `accumulation_continue_handler`: stale-message guard, extract the token
from the callback data, fail closed when the token is absent or owned by
another operator, expire (and delete) when the fixed TTL has elapsed,
else install a fresh accumulation session carrying the token's payload,
delete the draft row for `accumulation`, and delete the token — making it
single-use. -/
def accumulation_continue_handler (store : String → Option TokData)
    (d : SessionData) (msgId : Nat) (cbData : String) (fromUser : Nat) (now : Nat) :
    ContResult :=
  if staleMessage d.last_bot_message_id msgId then ⟨.ignoredStale, store, none, none⟩
  else
    match afterFirstColon cbData with
    | none => ⟨.badData, store, none, none⟩
    | some token =>
      match store token with
      | none => ⟨.notFound, store, none, none⟩
      | some tok =>
        if tok.user_id != fromUser then ⟨.notFound, store, none, none⟩
        else if now - tok.created_at > TOKEN_TTL_SECONDS then
          ⟨.expired, tokenDelete store token, none, none⟩
        else
          ⟨.resumed, tokenDelete store token, some "accumulation",
            some { d with
              user_id := some fromUser, process_name := some "accumulation",
              accumulation_qr_text := tok.goods, accumulation_qr_goods := tok.goods,
              accumulation_qr_tare := tok.tare,
              values := [], photos := [], step_index := 0,
              pending_photo_required := false, pending_photo_param_key := none }⟩

/-- `cgp_continue_handler`: identical token lifecycle, installing a cgp
session instead. -/
def cgp_continue_handler (store : String → Option TokData)
    (d : SessionData) (msgId : Nat) (cbData : String) (fromUser : Nat) (now : Nat) :
    ContResult :=
  if staleMessage d.last_bot_message_id msgId then ⟨.ignoredStale, store, none, none⟩
  else
    match afterFirstColon cbData with
    | none => ⟨.badData, store, none, none⟩
    | some token =>
      match store token with
      | none => ⟨.notFound, store, none, none⟩
      | some tok =>
        if tok.user_id != fromUser then ⟨.notFound, store, none, none⟩
        else if now - tok.created_at > TOKEN_TTL_SECONDS then
          ⟨.expired, tokenDelete store token, none, none⟩
        else
          ⟨.resumed, tokenDelete store token, some "cgp",
            some { d with
              user_id := some fromUser, process_name := some "cgp",
              cgp_qr_text := tok.goods, cgp_qr_goods := tok.goods,
              cgp_qr_tare := tok.tare,
              values := [], photos := [], step_index := 0,
              pending_photo_required := false, pending_photo_param_key := none }⟩

-- ----------------------------------------------------------------
-- Concrete sessions and inputs used by the verification below
-- ----------------------------------------------------------------

/-- A fresh cgp session sitting at the parameter menu. -/
def baseSession : SessionData :=
  ⟨some 1, some "cgp", 0, 1, [], [], false, false, none, none,
   none, none, none, none, none, none, none, some 5⟩

/-- A cgp session whose single collected value is the non-defect choice. -/
def cgpOkSession : SessionData :=
  { baseSession with values := [("cgp_inserts_visual", .s "ok")] }

/-- A cgp session with a defect-classified value and no attached photo. -/
def cgpDefectNoPhoto : SessionData :=
  { baseSession with values := [("cgp_inserts_visual", .s "not_ok")] }

/-- The same defect session after one photo was attached under the key. -/
def cgpDefectWithPhoto : SessionData :=
  { cgpDefectNoPhoto with photos := [("cgp_inserts_visual", ["photo1.jpg"])] }

/-- A forming session opened on the first step (`shell_diameter`). -/
def formingAt0 : SessionData :=
  { baseSession with process_name := some "forming", forming_session_id := some 7 }

/-- A completed-able forming session in which only the second numeric step
(`weight_sample_grams`) was filled. -/
def formingWeightOnly : SessionData :=
  { formingAt0 with values := [("weight_sample_grams", .q 5)] }

/-- A stored draft payload carrying an explicit version-like tag that any
later engine revision would consider stale. -/
def staleDraftData : List (String × Val) :=
  [("fsm_state", .s "Process:param_menu"), ("process_name", .s "forming"),
   ("schema_version", .s "legacy-0")]

/-- Three QRCODE detections with distinct texts, bounding-box areas
10, 50 and 30 and left edges 5, 80 and 40. -/
def qrObjsC7 : List QRObj :=
  [⟨"QRCODE", "A", 5, 0, 10, 1⟩, ⟨"QRCODE", "B", 80, 0, 50, 1⟩,
   ⟨"QRCODE", "C", 40, 0, 30, 1⟩]

/-- A token store holding one token owned by operator 7, created at
time 0. -/
def tokenStoreC8 : String → Option TokData :=
  fun t => if t = "tok1" then some ⟨7, some "GOODS-1", some "TARE-1", 0⟩ else none

/-- A cgp session stuck on a mandatory-photo requirement. -/
def pendingPhotoSession : SessionData :=
  { cgpDefectNoPhoto with
      pending_photo_required := true,
      pending_photo_param_key := some "cgp_inserts_visual" }

-- ================================================================
-- Helper lemmas
-- ================================================================

theorem lookupKV_setKV_self {α : Type} (m : List (String × α)) (k : String) (v : α) :
    lookupKV (setKV m k v) k = some v := by
  induction m with
  | nil => simp [setKV, lookupKV]
  | cons kv rest ih =>
    obtain ⟨k0, v0⟩ := kv
    by_cases h : k0 = k
    · simp [setKV, lookupKV, h]
    · simp [setKV, lookupKV, h, ih]

theorem reqFailure_none_forall (chain : List Step) (allV : List (String × Val))
    (photos : List (String × List String)) (l : List (String × Val))
    (h : reqFailure chain allV photos l = none) :
    ∀ k v, (k, v) ∈ l → entryFailure chain allV photos k v = none := by
  induction l with
  | nil => intro k v hm; cases hm
  | cons kv rest ih =>
    obtain ⟨k0, v0⟩ := kv
    intro k v hm
    unfold reqFailure at h
    cases he : entryFailure chain allV photos k0 v0 with
    | some e => rw [he] at h; cases h
    | none =>
      rw [he] at h
      rcases List.mem_cons.mp hm with hm | hm
      · obtain ⟨hk, hv⟩ := Prod.mk.injEq .. ▸ hm
        subst hk; subst hv; exact he
      · exact ih h k v hm

theorem entryFailure_not_success (chain : List Step) (allV : List (String × Val))
    (photos : List (String × List String)) (k : String) (v : Val) (e : FinishOutcome)
    (h : entryFailure chain allV photos k v = some e) :
    isSuccessOutcome e = false := by
  unfold entryFailure at h
  cases hf : chain.find? (fun st => st.key == k) with
  | none => rw [hf] at h; cases h
  | some st =>
    rw [hf] at h
    dsimp only [] at h
    by_cases h1 : (st.require_photo_always && !memKV photos k) = true
    · rw [if_pos h1] at h; obtain rfl := Option.some.inj h; rfl
    · rw [if_neg h1] at h
      by_cases h2 : (st.photo_on_defect && is_choice_defect_val k v && !memKV photos k) = true
      · rw [if_pos h2] at h; obtain rfl := Option.some.inj h; rfl
      · rw [if_neg h2] at h
        by_cases h3 : (st.comment_on_defect && is_choice_defect_val k v &&
            !(match lookupKV allV (k ++ "_comment") with
              | some c => truthyVal c
              | none => false)) = true
        · rw [if_pos h3] at h; obtain rfl := Option.some.inj h; rfl
        · rw [if_neg h3] at h; cases h

theorem reqFailure_not_success (chain : List Step) (allV : List (String × Val))
    (photos : List (String × List String)) (l : List (String × Val)) (e : FinishOutcome)
    (h : reqFailure chain allV photos l = some e) :
    isSuccessOutcome e = false := by
  induction l with
  | nil => cases h
  | cons kv rest ih =>
    obtain ⟨k0, v0⟩ := kv
    unfold reqFailure at h
    cases he : entryFailure chain allV photos k0 v0 with
    | some e0 =>
      rw [he] at h
      obtain rfl := Option.some.inj h
      exact entryFailure_not_success chain allV photos k0 v0 _ he
    | none => rw [he] at h; exact ih h

theorem entryFailure_defect_photo (chain : List Step) (allV : List (String × Val))
    (photos : List (String × List String)) (k : String) (v : Val) (st : Step)
    (hfind : chain.find? (fun s => s.key == k) = some st)
    (hflag : st.photo_on_defect = true)
    (hdef : is_choice_defect_val k v = true)
    (hnophoto : memKV photos k = false) :
    entryFailure chain allV photos k v = some (.missingPhoto k) := by
  unfold entryFailure
  rw [hfind]
  by_cases h1 : st.require_photo_always = true
  · simp [h1, hnophoto]
  · simp at h1
    simp [h1, hflag, hdef, hnophoto]

theorem value_numeric_of_first (pre post : List Step) (st : Step)
    (values : List (String × Val))
    (hpre : ∀ st2 ∈ pre, (st2.type == "float" && memKV values st2.key) = false)
    (hty : st.type = "float") (hmem : memKV values st.key = true) :
    value_numeric_of (pre ++ st :: post) values = lookupKV values st.key := by
  induction pre with
  | nil =>
    unfold value_numeric_of
    rw [List.nil_append, List.find?_cons_of_pos]
    simp [hty, hmem]
  | cons p rest ih =>
    unfold value_numeric_of at ih ⊢
    rw [List.cons_append, List.find?_cons_of_neg]
    · exact ih (fun st2 hm => hpre st2 (List.mem_cons_of_mem p hm))
    · have := hpre p (List.mem_cons_self p rest)
      simp [this]

-- ================================================================
-- C7: decode drops all but the two largest areas, then re-sorts by x
-- ================================================================

/-- C7: `Decode` on three deduplicated code candidates with bounding-box
areas 10, 50 and 30 at x-positions 5, 80 and 40 returns exactly two
candidates ordered area=30 at x=40 then area=50 at x=80 — the smallest is
dropped and the kept pair is re-sorted by ascending horizontal position. -/
theorem decode_three_codes_keeps_two_largest_left_to_right :
    (sync_decode_multi_qr qrObjsC7).map (fun i => (i.area, i.x)) = [(30, 40), (50, 80)] ∧
    (sync_decode_multi_qr qrObjsC7).length = 2 := by
  constructor <;> rfl

-- ================================================================
-- C1: no schema-version guard in load_state_from_db
-- ================================================================

/-- C1 counterexample: a stored draft whose payload carries an explicit
stale version tag is still loaded and returned (found, not deleted, data
returned verbatim) — `load_state_from_db` never compares any stored
version against the engine. -/
theorem load_state_version_tag_counterexample :
    (load_state_from_db (.parsed staleDraftData)).found = true ∧
    (load_state_from_db (.parsed staleDraftData)).draftDeleted = false ∧
    (load_state_from_db (.parsed staleDraftData)).loadedData = some staleDraftData ∧
    lookupKV staleDraftData "schema_version" = some (.s "legacy-0") := by
  refine ⟨rfl, rfl, rfl, rfl⟩

/-- C1 amended: `load_state_from_db` performs no schema-version check —
every draft whose payload deserializes is loaded and returned as-is,
whatever it contains; the draft row is deleted (with not-found returned)
exactly when deserialization fails, and an absent row returns not-found
without a delete. -/
theorem load_state_no_version_guard (dta : List (String × Val)) :
    (load_state_from_db (.parsed dta)).found = true ∧
    (load_state_from_db (.parsed dta)).loadedData = some dta ∧
    (load_state_from_db (.parsed dta)).draftDeleted = false ∧
    load_state_from_db .unparseable = ⟨false, none, none, true⟩ ∧
    load_state_from_db .absent = ⟨false, none, none, false⟩ := by
  refine ⟨rfl, rfl, rfl, rfl, rfl⟩

-- ================================================================
-- C3: choice selection does not check membership in the choice set
-- ================================================================

/-- C3 counterexample: submitting the value `bogus` — not among the cgp
step's canonical values `ok` / `not_ok` — is accepted and stored under the
step's key, contradicting the claim that non-canonical values are
rejected and leave the value map unchanged. -/
theorem choice_non_canonical_value_stored_counterexample :
    (process_choice_answer baseSession 5 "cgp_0:bogus").1 = .stored ∧
    lookupKV (process_choice_answer baseSession 5 "cgp_0:bogus").2.values
      "cgp_inserts_visual" = some (.s "bogus") ∧
    (cgp_chain.get? 0).map (fun st => (st.choices.map Prod.snd).contains "bogus") =
      some false := by
  refine ⟨rfl, rfl, rfl⟩

/-- C3 amended: the choice handler performs no membership check against
the step's choice set — whenever its guards pass (fresh message id, the
session's current step exists and is a choice step), the last
`:`-segment of the callback data, canonical or not, is stored under the
step's key. In deployment only canonical values arrive because the
keyboards are built from the choice set, but the operation itself rejects
nothing. -/
theorem choice_submit_stores_any_value
    (d : SessionData) (pn : String) (chain : List Step) (st : Step)
    (msgId : Nat) (cbData : String)
    (hstale : staleMessage d.last_bot_message_id msgId = false)
    (hpn : d.process_name = some pn)
    (hchain : lookupKV PROCESS_CHAINS pn = some chain)
    (hst : chain.get? d.step_index = some st)
    (hty : st.type = "choice") :
    lookupKV (process_choice_answer d msgId cbData).2.values st.key =
      some (.s (lastColonSegment cbData)) ∧
    ((process_choice_answer d msgId cbData).1 = .stored ∨
     (process_choice_answer d msgId cbData).1 = .storedAwaitPhoto ∨
     (process_choice_answer d msgId cbData).1 = .storedAwaitComment) := by
  have hst2 : chain[d.step_index]? = some st := by
    rw [← List.get?_eq_getElem?]; exact hst
  cases hrpa : st.require_photo_always <;>
    cases hpod : st.photo_on_defect <;>
      cases hcod : st.comment_on_defect <;>
        cases hdef : is_choice_defect st.key (lastColonSegment cbData) <;>
          simp [process_choice_answer, hstale, hpn, hchain, hst, hst2, hty,
            hrpa, hpod, hcod, hdef, lookupKV_setKV_self]

/-- Witness for the amended C3 theorem at the cgp session and the
canonical value `not_ok`. -/
theorem choice_submit_stores_any_value_witness :
    lookupKV (process_choice_answer baseSession 5 "cgp_0:not_ok").2.values
      "cgp_inserts_visual" = some (.s "not_ok") :=
  (choice_submit_stores_any_value baseSession "cgp" cgp_chain
    (choiceStep "cgp_inserts_visual" [("✅ Соответствует", "ok"), ("❌ Не соответствует", "not_ok")] true false false)
    5 "cgp_0:not_ok" rfl rfl rfl rfl rfl).1

-- ================================================================
-- C4: numeric bounds are inclusive; rejection stores nothing
-- ================================================================

/-- C4: for a float-typed step with bounds `[mn, mx]`, a parsed value
strictly below `mn` is rejected naming the lower bound, a value strictly
above `mx` is rejected naming the upper bound, every value in the closed
interval is accepted, and any rejected submission leaves the session data
(in particular the value map) unchanged. -/
theorem submit_float_bounds_inclusive
    (st : Step) (mn mx x : ℚ)
    (hty : st.type = "float") (hmn : st.vmin = some mn) (hmx : st.vmax = some mx)
    (hb : mn ≤ mx) :
    (x < mn → validate_input (.q x) st = some (.tooLow mn)) ∧
    (x > mx → validate_input (.q x) st = some (.tooHigh mx)) ∧
    (mn ≤ x → x ≤ mx → validate_input (.q x) st = none) ∧
    (∀ d t e d2, process_step_answer d t = (.invalidValue e, d2) → d2 = d) := by
  refine ⟨?_, ?_, ?_, ?_⟩
  · intro hlt
    unfold validate_input
    rw [hty, hmn, hmx]
    simp [hlt]
  · intro hgt
    unfold validate_input
    rw [hty, hmn, hmx]
    simp [hgt, not_lt.mpr (le_of_lt (lt_of_le_of_lt hb hgt))]
  · intro hle1 hle2
    unfold validate_input
    rw [hty, hmn, hmx]
    simp [not_lt.mpr hle1, not_lt.mpr hle2]
  · intro d t e d2 h
    unfold process_step_answer at h
    repeat'
      first
      | (split at h)
      | (dsimp only [] at h)
    all_goals injection h with h1 h2
    all_goals first | (exact h2.symm) | (cases h1)

/-- Witness for C4 at the `shell_diameter` step (bounds 1..500): 0.5 is
rejected naming the lower bound, 501 naming the upper bound, and both
endpoints are accepted. -/
theorem submit_float_bounds_inclusive_witness :
    validate_input (.q (1/2)) (floatStep "shell_diameter" 1 500) = some (.tooLow 1) ∧
    validate_input (.q 501) (floatStep "shell_diameter" 1 500) = some (.tooHigh 500) ∧
    validate_input (.q 1) (floatStep "shell_diameter" 1 500) = none ∧
    validate_input (.q 500) (floatStep "shell_diameter" 1 500) = none := by
  refine ⟨?_, ?_, ?_, ?_⟩
  · exact (submit_float_bounds_inclusive (floatStep "shell_diameter" 1 500)
      1 500 (1/2) rfl rfl rfl (by norm_num)).1 (by norm_num)
  · exact (submit_float_bounds_inclusive (floatStep "shell_diameter" 1 500)
      1 500 501 rfl rfl rfl (by norm_num)).2.1 (by norm_num)
  · exact (submit_float_bounds_inclusive (floatStep "shell_diameter" 1 500)
      1 500 1 rfl rfl rfl (by norm_num)).2.2.1 (by norm_num) (by norm_num)
  · exact (submit_float_bounds_inclusive (floatStep "shell_diameter" 1 500)
      1 500 500 rfl rfl rfl (by norm_num)).2.2.1 (by norm_num) (by norm_num)

-- ================================================================
-- C10: comma accepted as decimal separator
-- ================================================================

/-- C10: for a float-typed step, every comma of the raw text is replaced
by a dot before parsing, so any input whose comma-to-dot normalization
parses to an in-bounds number is stored as that number under the step's
key (for steps without `require_photo_always`, returning to the parameter
menu). -/
theorem submit_float_comma_decimal_separator
    (d : SessionData) (pn : String) (chain : List Step) (st : Step)
    (s : String) (x : ℚ)
    (hne : s.isEmpty = false)
    (hpn : d.process_name = some pn)
    (hchain : lookupKV PROCESS_CHAINS pn = some chain)
    (hst : chain.get? d.step_index = some st)
    (hty : st.type = "float")
    (hparse : parseFloat (replaceCommaDot (pyStrip s)) = some x)
    (hvalid : validate_input (.q x) st = none)
    (halways : st.require_photo_always = false) :
    process_step_answer d s =
      (.stored, { d with values := setKV d.values st.key (.q x) }) := by
  have hst2 : chain[d.step_index]? = some st := by
    rw [← List.get?_eq_getElem?]; exact hst
  have hdiff : (("float" : String) = "choice") = False := eq_false (by decide)
  simp [process_step_answer, hne, hpn, hchain, hst, hst2, hty, hdiff, hparse,
    hvalid, halways]

/-- Witness for C10: submitting `3,5` at the `shell_diameter` step stores
the number 7/2 (= 3.5) rather than rejecting the input. -/
theorem submit_float_comma_decimal_separator_witness :
    process_step_answer formingAt0 "3,5" =
      (.stored, { formingAt0 with values := [("shell_diameter", .q (7/2))] }) := by
  have hparse : parseFloat (replaceCommaDot (pyStrip "3,5")) = some (7/2) := by
    have h1 : parseFloat (replaceCommaDot (pyStrip "3,5")) =
        some (((3 : ℕ) : ℚ) + ((5 : ℕ) : ℚ) / (10 : ℚ) ^ (1 : ℕ)) := by rfl
    rw [h1]
    norm_num
  have hvalid : validate_input (.q (7/2)) (floatStep "shell_diameter" 1 500) = none := by
    norm_num [validate_input, floatStep]
  have h := submit_float_comma_decimal_separator formingAt0 "forming" forming_chain
    (floatStep "shell_diameter" 1 500) "3,5" (7/2) rfl rfl rfl rfl rfl
    hparse hvalid rfl
  simpa using h

-- ================================================================
-- C5: completion is blocked while a requirement is pending
-- ================================================================

/-- C5: whenever the pending-photo or pending-comment flag is set,
`finish_process` returns the corresponding error, never reaches the Record
Sink insert, and neither clears the session nor the draft; the
save-and-finish button handler likewise only alerts. -/
theorem finish_blocked_while_requirement_pending
    (d : SessionData) (sinkOk : Bool)
    (hp : d.pending_photo_required = true ∨ d.pending_comment_required = true) :
    ((finish_process d sinkOk).outcome = .pendingPhoto ∨
     (finish_process d sinkOk).outcome = .pendingComment) ∧
    (finish_process d sinkOk).insertAttempt = none ∧
    (finish_process d sinkOk).fsmCleared = false ∧
    (finish_process d sinkOk).draftCleared = false ∧
    (∀ msgId, staleMessage d.last_bot_message_id msgId = false →
      param_menu_done d msgId sinkOk = .needPhotoAlert ∨
      param_menu_done d msgId sinkOk = .needCommentAlert) := by
  cases hph : d.pending_photo_required with
  | true =>
    refine ⟨Or.inl (by simp [finish_process, hph]), by simp [finish_process, hph],
      by simp [finish_process, hph], by simp [finish_process, hph], ?_⟩
    intro msgId hstale
    exact Or.inl (by simp [param_menu_done, hph, hstale])
  | false =>
    have hpc : d.pending_comment_required = true := by
      rcases hp with h | h
      · rw [hph] at h; cases h
      · exact h
    refine ⟨Or.inr (by simp [finish_process, hph, hpc]),
      by simp [finish_process, hph, hpc], by simp [finish_process, hph, hpc],
      by simp [finish_process, hph, hpc], ?_⟩
    intro msgId hstale
    exact Or.inr (by simp [param_menu_done, hph, hpc, hstale])

/-- Witness for C5 at a session stuck on a photo requirement. -/
theorem finish_blocked_while_requirement_pending_witness :
    (finish_process pendingPhotoSession true).insertAttempt = none ∧
    ((finish_process pendingPhotoSession true).outcome = .pendingPhoto ∨
     (finish_process pendingPhotoSession true).outcome = .pendingComment) :=
  ⟨(finish_blocked_while_requirement_pending pendingPhotoSession true (Or.inl rfl)).2.1,
   (finish_blocked_while_requirement_pending pendingPhotoSession true (Or.inl rfl)).1⟩

-- ================================================================
-- C6: a defect value with photo_on_defect and no photo blocks completion
-- ================================================================

/-- C6: for any collected value classified as a defect on a step with
`photo_on_defect` set and no image attached under its key, completion
never succeeds and the Record Sink is never reached; on the concrete
defect session the error names the step, and attaching one photo under
the key makes the same completion succeed. -/
theorem finish_missing_defect_photo_blocks
    (d : SessionData) (sinkOk : Bool) (k : String) (v : Val) (st : Step)
    (hmem : (k, v) ∈ d.values)
    (hfind : (chainFor d.process_name).find? (fun s => s.key == k) = some st)
    (hflag : st.photo_on_defect = true)
    (hdef : is_choice_defect_val k v = true)
    (hnophoto : memKV d.photos k = false) :
    (finish_process d sinkOk).insertAttempt = none ∧
    isSuccessOutcome (finish_process d sinkOk).outcome = false ∧
    (finish_process cgpDefectNoPhoto true).outcome = .missingPhoto "cgp_inserts_visual" ∧
    (finish_process cgpDefectWithPhoto true).outcome = .savedOther := by
  have hmain : (finish_process d sinkOk).insertAttempt = none ∧
      isSuccessOutcome (finish_process d sinkOk).outcome = false := by
    cases hph : d.pending_photo_required with
    | true =>
      have h : finish_process d sinkOk = ⟨.pendingPhoto, none, false, false⟩ := by
        simp [finish_process, hph]
      rw [h]; exact ⟨rfl, rfl⟩
    | false =>
      cases hpc : d.pending_comment_required with
      | true =>
        have h : finish_process d sinkOk = ⟨.pendingComment, none, false, false⟩ := by
          simp [finish_process, hph, hpc]
        rw [h]; exact ⟨rfl, rfl⟩
      | false =>
        cases hvE : d.values.isEmpty with
        | true =>
          have h : finish_process d sinkOk = ⟨.noValues, none, false, false⟩ := by
            simp [finish_process, hph, hpc, hvE]
          rw [h]; exact ⟨rfl, rfl⟩
        | false =>
          cases hu : d.user_id with
          | none =>
            have h : finish_process d sinkOk =
                ⟨.noUser, none, true, d.process_name.isSome⟩ := by
              simp [finish_process, hph, hpc, hvE, hu]
            rw [h]; exact ⟨rfl, rfl⟩
          | some uid =>
            cases hreq : reqFailure (chainFor d.process_name) d.values d.photos d.values with
            | some err =>
              have h : finish_process d sinkOk = ⟨err, none, false, false⟩ := by
                simp [finish_process, hph, hpc, hvE, hu, hreq]
              rw [h]
              exact ⟨rfl, reqFailure_not_success _ _ _ _ _ hreq⟩
            | none =>
              exfalso
              have hall := reqFailure_none_forall _ _ _ _ hreq k v hmem
              rw [entryFailure_defect_photo _ _ _ _ _ st hfind hflag hdef hnophoto] at hall
              cases hall
  exact ⟨hmain.1, hmain.2, rfl, rfl⟩

/-- Witness for C6 at the concrete cgp defect session without photo. -/
theorem finish_missing_defect_photo_blocks_witness :
    (finish_process cgpDefectNoPhoto true).insertAttempt = none ∧
    isSuccessOutcome (finish_process cgpDefectNoPhoto true).outcome = false :=
  ⟨(finish_missing_defect_photo_blocks cgpDefectNoPhoto true "cgp_inserts_visual"
      (.s "not_ok")
      (choiceStep "cgp_inserts_visual"
        [("✅ Соответствует", "ok"), ("❌ Не соответствует", "not_ok")] true false false)
      (by decide) rfl rfl rfl rfl).1,
   (finish_missing_defect_photo_blocks cgpDefectNoPhoto true "cgp_inserts_visual"
      (.s "not_ok")
      (choiceStep "cgp_inserts_visual"
        [("✅ Соответствует", "ok"), ("❌ Не соответствует", "not_ok")] true false false)
      (by decide) rfl rfl rfl rfl).2.1⟩

-- ================================================================
-- C2: insert failure clears the in-memory session (draft row kept)
-- ================================================================

/-- C2 counterexample: when the final insert fails on a well-formed cgp
session, `finish_process` clears the in-memory FSM session
(`state.clear()`), contradicting the claim that it is preserved; only the
durable draft row is kept. -/
theorem finish_sink_failure_clears_session_counterexample :
    (finish_process cgpOkSession false).outcome = .saveFailed ∧
    (finish_process cgpOkSession false).fsmCleared = true ∧
    (finish_process cgpOkSession false).draftCleared = false ∧
    (finish_process cgpOkSession false).insertAttempt.isSome = true := by
  refine ⟨rfl, rfl, rfl, rfl⟩

/-- C2 amended: when the final insert into the Record Sink fails, the
failure is surfaced to the operator as retryable and the durable draft
row is not deleted, but the in-memory session (collected values, photos,
step index) is cleared — collected answers survive only through the
stored draft. -/
theorem finish_sink_failure_retryable_draft_kept
    (d : SessionData) (uid : Nat)
    (hph : d.pending_photo_required = false)
    (hpc : d.pending_comment_required = false)
    (hv : d.values.isEmpty = false)
    (hu : d.user_id = some uid)
    (hreq : reqFailure (chainFor d.process_name) d.values d.photos d.values = none) :
    (finish_process d false).outcome = .saveFailed ∧
    (finish_process d false).insertAttempt.isSome = true ∧
    (finish_process d false).draftCleared = false ∧
    (finish_process d false).fsmCleared = true := by
  refine ⟨?_, ?_, ?_, ?_⟩ <;> simp [finish_process, hph, hpc, hv, hu, hreq]

/-- Witness for the amended C2 theorem at the concrete cgp session. -/
theorem finish_sink_failure_retryable_draft_kept_witness :
    (finish_process cgpOkSession false).outcome = .saveFailed ∧
    (finish_process cgpOkSession false).fsmCleared = true :=
  ⟨(finish_sink_failure_retryable_draft_kept cgpOkSession 1 rfl rfl rfl rfl rfl).1,
   (finish_sink_failure_retryable_draft_kept cgpOkSession 1 rfl rfl rfl rfl rfl).2.2.2⟩

-- ================================================================
-- C9: the headline numeric value
-- ================================================================

/-- C9 counterexample: a completed forming workflow in which only the
second numeric step (`weight_sample_grams`) was filled stores that later
step's value as the record's headline numeric value, while the first
numeric step in chain order (`shell_diameter`) has no collected value —
so the headline is not "the value of the first numeric step in chain
order". -/
theorem headline_numeric_first_step_counterexample :
    (finish_process formingWeightOnly true).insertAttempt.map InsertArgs.value_numeric =
      some (some (.q 5)) ∧
    (forming_chain.find? (fun st => st.type == "float")).map Step.key =
      some "shell_diameter" ∧
    lookupKV formingWeightOnly.values "shell_diameter" = none ∧
    (finish_process formingWeightOnly true).outcome = .savedForming := by
  refine ⟨rfl, rfl, rfl, rfl⟩

/-- C9 amended: the record's headline numeric value is the value of the
first numeric step in chain order AMONG THOSE WITH A COLLECTED VALUE;
values of numeric steps later in the chain never overwrite it. -/
theorem headline_numeric_first_collected_float
    (d : SessionData) (uid : Nat) (pre post : List Step) (st : Step)
    (hchain : chainFor d.process_name = pre ++ st :: post)
    (hpre : ∀ st2 ∈ pre, (st2.type == "float" && memKV d.values st2.key) = false)
    (hty : st.type = "float") (hmem : memKV d.values st.key = true)
    (hph : d.pending_photo_required = false)
    (hpc : d.pending_comment_required = false)
    (hv : d.values.isEmpty = false)
    (hu : d.user_id = some uid)
    (hreq : reqFailure (chainFor d.process_name) d.values d.photos d.values = none) :
    (finish_process d true).insertAttempt.map InsertArgs.value_numeric =
      some (lookupKV d.values st.key) := by
  have hvn : value_numeric_of (chainFor d.process_name) d.values =
      lookupKV d.values st.key := by
    rw [hchain]
    exact value_numeric_of_first pre post st d.values hpre hty hmem
  cases hfo : (d.process_name == some "forming") with
  | true => simp [finish_process, hph, hpc, hv, hu, hreq, hfo, hvn]
  | false => simp [finish_process, hph, hpc, hv, hu, hreq, hfo, hvn]

/-- Witness for the amended C9 theorem: on the forming session with only
`weight_sample_grams` filled the headline is that step's value. -/
theorem headline_numeric_first_collected_float_witness :
    (finish_process formingWeightOnly true).insertAttempt.map InsertArgs.value_numeric =
      some (lookupKV formingWeightOnly.values "weight_sample_grams") :=
  headline_numeric_first_collected_float formingWeightOnly 1
    [floatStep "shell_diameter" 1 500]
    [ floatStep "stuffing_diameter" 1 500,
      floatStep "stuffing_length_visual" 1 10000,
      choiceStep "mince_contamination_visual" [("✅ Норма", "norm"), ("❌ Дефект", "defect")] true false false,
      choiceStep "hanging_quality_visual" [("✅ Норма", "norm"), ("❌ Дефект", "defect")] true false false ]
    (floatStep "weight_sample_grams" 1 100000)
    rfl (by decide) rfl (by decide) rfl rfl rfl rfl rfl

-- ================================================================
-- C8: continuation tokens are single-use
-- ================================================================

theorem tokenDelete_self (store : String → Option TokData) (tok : String) :
    tokenDelete store tok tok = none := by
  simp [tokenDelete]

theorem accum_resumed_tokens (store : String → Option TokData)
    (d : SessionData) (msgId : Nat) (cbData : String) (fromUser now : Nat) (tok : String)
    (hcb : afterFirstColon cbData = some tok)
    (ha : (accumulation_continue_handler store d msgId cbData fromUser now).outcome = .resumed) :
    (accumulation_continue_handler store d msgId cbData fromUser now).tokens =
      tokenDelete store tok := by
  cases h1 : staleMessage d.last_bot_message_id msgId with
  | true => simp [accumulation_continue_handler, h1] at ha
  | false =>
    cases h2 : store tok with
    | none => simp [accumulation_continue_handler, h1, hcb, h2] at ha
    | some tk =>
      by_cases h3 : tk.user_id = fromUser
      case neg => simp [accumulation_continue_handler, h1, hcb, h2, h3] at ha
      case pos =>
        by_cases h4 : now - tk.created_at > TOKEN_TTL_SECONDS
        · simp [accumulation_continue_handler, h1, hcb, h2, h3, h4] at ha
        · simp [accumulation_continue_handler, h1, hcb, h2, h3, h4]

theorem accum_second_use_not_found (store : String → Option TokData)
    (d : SessionData) (msgId : Nat) (cbData : String) (fromUser now : Nat) (tok : String)
    (hcb : afterFirstColon cbData = some tok)
    (hstale : staleMessage d.last_bot_message_id msgId = false)
    (hnone : store tok = none) :
    (accumulation_continue_handler store d msgId cbData fromUser now).outcome = .notFound := by
  simp [accumulation_continue_handler, hstale, hcb, hnone]

theorem cgp_resumed_tokens (store : String → Option TokData)
    (d : SessionData) (msgId : Nat) (cbData : String) (fromUser now : Nat) (tok : String)
    (hcb : afterFirstColon cbData = some tok)
    (hc : (cgp_continue_handler store d msgId cbData fromUser now).outcome = .resumed) :
    (cgp_continue_handler store d msgId cbData fromUser now).tokens =
      tokenDelete store tok := by
  cases h1 : staleMessage d.last_bot_message_id msgId with
  | true => simp [cgp_continue_handler, h1] at hc
  | false =>
    cases h2 : store tok with
    | none => simp [cgp_continue_handler, h1, hcb, h2] at hc
    | some tk =>
      by_cases h3 : tk.user_id = fromUser
      case neg => simp [cgp_continue_handler, h1, hcb, h2, h3] at hc
      case pos =>
        by_cases h4 : now - tk.created_at > TOKEN_TTL_SECONDS
        · simp [cgp_continue_handler, h1, hcb, h2, h3, h4] at hc
        · simp [cgp_continue_handler, h1, hcb, h2, h3, h4]

theorem cgp_second_use_not_found (store : String → Option TokData)
    (d : SessionData) (msgId : Nat) (cbData : String) (fromUser now : Nat) (tok : String)
    (hcb : afterFirstColon cbData = some tok)
    (hstale : staleMessage d.last_bot_message_id msgId = false)
    (hnone : store tok = none) :
    (cgp_continue_handler store d msgId cbData fromUser now).outcome = .notFound := by
  simp [cgp_continue_handler, hstale, hcb, hnone]

/-- C8: once either continue handler successfully consumes a token, the
token's record is deleted from the store, and any later invocation
resolving the same token — by any caller, at any later time, regardless
of remaining TTL — fails closed with not-found. -/
theorem continuation_token_single_use
    (store : String → Option TokData) (d d2 : SessionData)
    (msgId msgId2 uid uid2 now now2 : Nat) (cbData tok : String)
    (hcb : afterFirstColon cbData = some tok)
    (hstale2 : staleMessage d2.last_bot_message_id msgId2 = false)
    (ha : (accumulation_continue_handler store d msgId cbData uid now).outcome = .resumed)
    (hc : (cgp_continue_handler store d msgId cbData uid now).outcome = .resumed) :
    (accumulation_continue_handler store d msgId cbData uid now).tokens tok = none ∧
    (accumulation_continue_handler
      ((accumulation_continue_handler store d msgId cbData uid now).tokens)
      d2 msgId2 cbData uid2 now2).outcome = .notFound ∧
    (cgp_continue_handler store d msgId cbData uid now).tokens tok = none ∧
    (cgp_continue_handler
      ((cgp_continue_handler store d msgId cbData uid now).tokens)
      d2 msgId2 cbData uid2 now2).outcome = .notFound := by
  have hA := accum_resumed_tokens store d msgId cbData uid now tok hcb ha
  have hC := cgp_resumed_tokens store d msgId cbData uid now tok hcb hc
  refine ⟨?_, ?_, ?_, ?_⟩
  · rw [hA]; exact tokenDelete_self store tok
  · exact accum_second_use_not_found _ d2 msgId2 cbData uid2 now2 tok hcb hstale2
      (by rw [hA]; exact tokenDelete_self store tok)
  · rw [hC]; exact tokenDelete_self store tok
  · exact cgp_second_use_not_found _ d2 msgId2 cbData uid2 now2 tok hcb hstale2
      (by rw [hC]; exact tokenDelete_self store tok)

/-- Witness for C8: operator 7 consumes `tok1`; a retry much later (well
past any TTL window) returns not-found. -/
theorem continuation_token_single_use_witness :
    (accumulation_continue_handler tokenStoreC8 baseSession 5 "accum_continue:tok1" 7 100).tokens "tok1" = none ∧
    (accumulation_continue_handler
      ((accumulation_continue_handler tokenStoreC8 baseSession 5 "accum_continue:tok1" 7 100).tokens)
      baseSession 5 "accum_continue:tok1" 7 999999).outcome = .notFound :=
  ⟨(continuation_token_single_use tokenStoreC8 baseSession baseSession 5 5 7 7 100 999999
      "accum_continue:tok1" "tok1" rfl rfl rfl rfl).1,
   (continuation_token_single_use tokenStoreC8 baseSession baseSession 5 5 7 7 100 999999
      "accum_continue:tok1" "tok1" rfl rfl rfl rfl).2.1⟩

end QualityControl
